import Mathlib

/-!
Shallow embedding of `src/hello.py`, a CLI that bulk-manages AWS Lambda
reserved concurrency (modes: show / remove / throttle / set, input from
`--function NAME` or a CSV file).

Modelling choices:
* Python strings are Lean `String`; the stdlib operations used by the
  script (`str.strip`, `str.lower`, `str.startswith`, `int(...)`) are
  re-implemented character-wise below for ASCII inputs (`pyStrip`,
  `pyLower`, `pyStartsWith`, `pyInt?`).
* The CSV file appears in `Args` already split into rows of fields, the
  shape `csv.reader` hands to the loop in `iter_targets` (an empty list
  is a blank row, which the loop skips).
* The remote Lambda API is opaque: a run is summarised by the list of
  API calls issued (`Action`) and the process exit code.  Whether a call
  raises is an oracle `fails : Action → Bool`; in the show branch the
  `ClientError` is caught inside `get_reserved_concurrency` and turned
  into an output line, so the oracle does not affect that branch.
* `raise SystemExit(msg)` is `Except.error msg`; a normal return with
  exit code `c` is `Except.ok (trace, c)`.
-/

namespace Hello

/-- Python `str.isspace` characters relevant to `str.strip` (ASCII range). -/
def pyIsSpace (c : Char) : Bool :=
  c == ' ' || c == '\t' || c == '\n' || c == '\x0d' || c == '\x0b' || c == '\x0c'

/-- Python `str.strip()`: drop leading and trailing whitespace. -/
def pyStrip (s : String) : String :=
  ⟨((s.data.dropWhile pyIsSpace).reverse.dropWhile pyIsSpace).reverse⟩

/-- Python `str.lower()` (ASCII letters). -/
def pyLower (s : String) : String :=
  ⟨s.data.map Char.toLower⟩

/-- Python `a.startswith(b)`. -/
def pyStartsWith (s pre : String) : Bool :=
  pre.data.isPrefixOf s.data

/-- Python `sep.join(l)`. -/
def pyJoin (sep : String) (l : List String) : String :=
  match l with
  | [] => ""
  | [x] => x
  | x :: rest => x ++ sep ++ pyJoin sep rest

/-- Value of an ASCII digit. -/
def digitVal (c : Char) : Nat := c.toNat - 48

/-- Digit tail of a Python integer literal: digits, with a single
underscore allowed between two digits (as `int` accepts). -/
def pyDigits : List Char → Nat → Option Nat
  | [], acc => some acc
  | '_' :: c :: rest, acc =>
      if c.isDigit then pyDigits rest (acc * 10 + digitVal c) else none
  | ['_'], _ => none
  | c :: rest, acc =>
      if c.isDigit then pyDigits rest (acc * 10 + digitVal c) else none

/-- Unsigned part of Python `int(s)`: at least one digit, no leading
underscore. -/
def pyNat? : List Char → Option Nat
  | [] => none
  | c :: rest => if c.isDigit then pyDigits rest (digitVal c) else none

/-- Python `int(s)` on an already-stripped string: optional sign, then
digits (ASCII; the exotic unicode digit forms `int` also accepts are out
of scope, no claim exercises them). `none` models `ValueError`. -/
def pyInt? (s : String) : Option Int :=
  match s.data with
  | '+' :: rest => (pyNat? rest).map Int.ofNat
  | '-' :: rest => (pyNat? rest).map fun n => -(n : Int)
  | cs => (pyNat? cs).map Int.ofNat

/-- Naive Python `repr` of a short string (used only inside the bad-integer
error message, matching the repr interpolation for quote-free inputs). -/
def pyRepr (s : String) : String := "\x27" ++ s ++ "\x27"

/-- A target: `(function_name, value_or_None)` as yielded by `iter_targets`. -/
abbrev Target := String × Option Int

/-- Parsed command-line arguments (`argparse.Namespace`).  `file` holds the
CSV rows already split into fields; `showFlag` is `args.show` (`show` is a
Lean keyword). -/
structure Args where
  function : Option String
  file : Option (List (List String))
  showFlag : Bool
  remove : Bool
  throttle : Bool
  do_set : Bool
  concurrency : Option Int
  dry_run : Bool

/-- Model of `parse_int_or_none` from `hello.py`: `None`/blank → `None`, an integer
parses, anything else raises `SystemExit`. -/
def parse_int_or_none (s : Option String) : Except String (Option Int) :=
  match s with
  | none => .ok none
  | some s =>
      let s := pyStrip s
      if s == "" then .ok none
      else
        match pyInt? s with
        | some n => .ok (some n)
        | none => .error ("Invalid concurrency value (not an integer): " ++ pyRepr s)

/-- Model of `add_row` (the local helper in `iter_targets`): strip the name, skip
empty or header-like names, otherwise append the target, resolving the
value from the row else from `--concurrency` when `read_values`. -/
def add_row (conc : Option Int) (read_values : Bool) (rows : List Target)
    (name : String) (val_text : Option String) : Except String (List Target) :=
  let name := pyStrip name
  if name == "" || pyStartsWith (pyLower name) "function" then .ok rows
  else if read_values then
    match parse_int_or_none val_text with
    | .error e => .error e
    | .ok (some per_row) => .ok (rows ++ [(name, some per_row)])
    | .ok none => .ok (rows ++ [(name, conc)])
  else .ok (rows ++ [(name, none)])

/-- The CSV loop of `iter_targets`: skip empty rows, else feed
`(parts[0], parts[1] if len(parts) > 1 else None)` to `add_row`. -/
def processRows (conc : Option Int) (read_values : Bool) (rows : List Target) :
    List (List String) → Except String (List Target)
  | [] => .ok rows
  | parts :: rest =>
      if parts.isEmpty then processRows conc read_values rows rest
      else
        match add_row conc read_values rows (parts.headD "") parts[1]? with
        | .error e => .error e
        | .ok rows2 => processRows conc read_values rows2 rest

/-- The no-targets `SystemExit` message of `iter_targets`. -/
def noTargetsMsg : String :=
  "No function names provided. Use --function or --file (or --file - for STDIN)."

/-- The `if args.function:` step of `iter_targets` (an empty string is
falsy in Python, so it is skipped like an absent flag). -/
def firstRows (args : Args) (read_values : Bool) : Except String (List Target) :=
  match args.function with
  | some f => if f == "" then .ok [] else add_row args.concurrency read_values [] f none
  | none => .ok []

/-- The `if args.file:` step of `iter_targets`: run the CSV loop over the
rows already collected. -/
def fileRows (args : Args) (read_values : Bool) (rows0 : List Target) :
    Except String (List Target) :=
  match args.file with
  | some csvRows => processRows args.concurrency read_values rows0 csvRows
  | none => .ok rows0

/-- Model of `iter_targets`: the `--function` name (when truthy) then the CSV rows;
raises when the resulting list is empty. -/
def iter_targets (args : Args) (read_values : Bool) : Except String (List Target) :=
  match firstRows args read_values with
  | .error e => .error e
  | .ok rows0 =>
      match fileRows args read_values rows0 with
      | .error e => .error e
      | .ok rows => if rows.isEmpty then .error noTargetsMsg else .ok rows

/-- A remote Lambda API call: `get_function_concurrency`,
`put_function_concurrency` (with its value), `delete_function_concurrency`. -/
inductive Action where
  | get (fn : String)
  | put (fn : String) (v : Int)
  | delete (fn : String)
deriving DecidableEq

/-- The mutually-exclusive-modes `SystemExit` message in `main`. -/
def modeMsg : String :=
  "You must specify exactly one mode: --remove, --throttle, or --set (or use --show)."

/-- The missing-value `SystemExit` message of set mode: up to 5 offending
names, `...` appended when more exist. -/
def missingMsg (missing : List String) : String :=
  "--set requires a concurrency value per-row or via --concurrency; missing for: "
    ++ pyJoin ", " (missing.take 5) ++ (if missing.length > 5 then "..." else "")

/-- Number of non-show mode flags set (`len(chosen)` in `main`). -/
def modeCount (args : Args) : Nat :=
  (if args.remove then 1 else 0) + (if args.throttle then 1 else 0)
    + (if args.do_set then 1 else 0)

/-- Dispatch of one set-mode target in the live run: `v == -1` submits a
delete, anything else a put.  The `none` case is unreachable behind the
missing-value check (in the source `v` is a validated `int` there). -/
def setAction (t : Target) : Action :=
  match t.2 with
  | some v => if v = -1 then Action.delete t.1 else Action.put t.1 v
  | none => Action.put t.1 0

/-- Model of `main`, summarised as the list of API calls issued and the exit code,
given the oracle `fails` telling which calls raise.  Show mode catches
errors inside `get_reserved_concurrency` and always returns 0; the other
live modes submit every call, then set `had_error` while draining
`as_completed`, exiting 1 when any call raised. -/
def main (args : Args) (fails : Action → Bool) : Except String (List Action × Nat) :=
  if args.showFlag then
    match iter_targets args false with
    | .error e => .error e
    | .ok targets => .ok (targets.map (fun t => Action.get t.1), 0)
  else if modeCount args ≠ 1 then .error modeMsg
  else if args.remove then
    match iter_targets args false with
    | .error e => .error e
    | .ok targets =>
        if args.dry_run then .ok ([], 0)
        else
          let acts := targets.map (fun t => Action.delete t.1)
          .ok (acts, if acts.any fails then 1 else 0)
  else if args.throttle then
    match iter_targets args false with
    | .error e => .error e
    | .ok targets =>
        if args.dry_run then .ok ([], 0)
        else
          let acts := targets.map (fun t => Action.put t.1 0)
          .ok (acts, if acts.any fails then 1 else 0)
  else if args.do_set then
    match iter_targets args true with
    | .error e => .error e
    | .ok targets =>
        let missing := (targets.filter fun t => t.2 == none).map Prod.fst
        if ¬ missing.isEmpty then .error (missingMsg missing)
        else if args.dry_run then .ok ([], 0)
        else
          let acts := targets.map setAction
          .ok (acts, if acts.any fails then 1 else 0)
  else
    -- unreachable when modeCount = 1: mirrors falling off the end of main()
    .ok ([], 0)

/-- A name survives `add_row`: nonempty after stripping and not
header-like (`lower().startswith` of the stripped name). -/
def goodName (name : String) : Bool :=
  !(pyStrip name == "") && !(pyStartsWith (pyLower (pyStrip name)) "function")

/-- A CSV row contributes a target: non-blank and its first field is a
good name. -/
def rowKept (parts : List String) : Bool :=
  !parts.isEmpty && goodName (parts.headD "")

/-- The stripped names of the CSV rows that survive filtering, in order. -/
def keptNames (csvRows : List (List String)) : List String :=
  (csvRows.filter rowKept).map fun p => pyStrip (p.headD "")

/-- The API calls `main` issues, separated from the exit code: the trace
does not depend on which calls fail (all futures are submitted before any
result is consumed). -/
def actsOf (args : Args) : Except String (List Action) :=
  if args.showFlag then
    match iter_targets args false with
    | .error e => .error e
    | .ok targets => .ok (targets.map (fun t => Action.get t.1))
  else if modeCount args ≠ 1 then .error modeMsg
  else if args.remove then
    match iter_targets args false with
    | .error e => .error e
    | .ok targets =>
        if args.dry_run then .ok []
        else .ok (targets.map (fun t => Action.delete t.1))
  else if args.throttle then
    match iter_targets args false with
    | .error e => .error e
    | .ok targets =>
        if args.dry_run then .ok []
        else .ok (targets.map (fun t => Action.put t.1 0))
  else if args.do_set then
    match iter_targets args true with
    | .error e => .error e
    | .ok targets =>
        let missing := (targets.filter fun t => t.2 == none).map Prod.fst
        if ¬ missing.isEmpty then .error (missingMsg missing)
        else if args.dry_run then .ok []
        else .ok (targets.map setAction)
  else .ok []

/-! Concrete fixtures used by witnesses and counterexamples. -/

/-- Oracle: no API call raises. -/
def noFail : Action → Bool := fun _ => false

/-- Oracle: every API call raises `ClientError`. -/
def allFail : Action → Bool := fun _ => true

/-- The spec scenario CSV `a,5 / b / c,-1`. -/
def csvScenario : List (List String) := [["a", "5"], ["b"], ["c", "-1"]]

/-- Args for `--set --file <scenario csv> --concurrency 3`. -/
def setArgsScenario : Args :=
  ⟨none, some csvScenario, false, false, false, true, some 3, false⟩

/-- Args for `--show --function a`. -/
def showArgs : Args := ⟨some "a", none, true, false, false, false, none, false⟩

/-- Args for `--show --function a --dry-run`. -/
def showDryArgs : Args := ⟨some "a", none, true, false, false, false, none, true⟩

/-- Args for `--remove --function a`. -/
def removeArgs : Args := ⟨some "a", none, false, true, false, false, none, false⟩

/-- Args for `--remove --function a --dry-run`. -/
def removeDryArgs : Args := ⟨some "a", none, false, true, false, false, none, true⟩

/-- Args for `--throttle --file <a,7> --concurrency 9`. -/
def throttleArgs : Args :=
  ⟨none, some [["a", "7"]], false, false, true, false, some 9, false⟩

/-- Args for `--set --file <six value-less rows>` with no `--concurrency`. -/
def setMissing6Args : Args :=
  ⟨none, some [["f1"], ["f2"], ["f3"], ["f4"], ["f5"], ["f6"]],
    false, false, false, true, none, false⟩

/-- Args for `--set --file <x>` with no `--concurrency`: one unresolved target. -/
def setMissing1Args : Args :=
  ⟨none, some [["x"]], false, false, false, true, none, false⟩

/-- Args for `--set --file <only a blank row>`: empty target list. -/
def emptyCsvArgs : Args := ⟨none, some [[]], false, false, false, true, none, false⟩

/-- Args for `--show --function FunctionFoo`: a header-like single name. -/
def headerShowArgs : Args :=
  ⟨some "FunctionFoo", none, true, false, false, false, none, false⟩

/-- CSV mixing a header row, a blank row, a whitespace-only name, a real
row and a lowercase header-like row. -/
def filterCsv : List (List String) :=
  [["Function", "x"], [], ["   "], ["a", "5"], ["function2", "3"]]

/-- Args for `--set --file <filterCsv>`. -/
def filterArgs : Args := ⟨none, some filterCsv, false, false, false, true, none, false⟩

/-- Args for `--set --file <a,-2 / b,0>`: out-of-range and zero values. -/
def negValArgs : Args :=
  ⟨none, some [["a", "-2"], ["b", "0"]], false, false, false, true, none, false⟩

/-- Claim C4 as stated: in every mode, the exit code is 1 when some issued
call fails and 0 when none does. -/
def claimC4Stated : Prop :=
  ∀ (args : Args) (fails : Action → Bool) (tr : List Action) (code : Nat),
    main args fails = .ok (tr, code) → code = if tr.any fails then 1 else 0

/-- Claim C5 as stated: with `--dry-run`, in every mode, no remote API
call is performed and the exit code is 0. -/
def claimC5Stated : Prop :=
  ∀ (args : Args) (fails : Action → Bool) (tr : List Action) (code : Nat),
    args.dry_run = true → main args fails = .ok (tr, code) → tr = [] ∧ code = 0

/-! Lemmas about target resolution. -/

theorem add_row_cond (name : String) :
    (pyStrip name == "" || pyStartsWith (pyLower (pyStrip name)) "function")
      = !(goodName name) := by
  simp [goodName]

theorem add_row_skip (conc : Option Int) (rv : Bool) (rows : List Target)
    (name : String) (vt : Option String) (h : goodName name = false) :
    add_row conc rv rows name vt = .ok rows := by
  have hc : (pyStrip name == "" || pyStartsWith (pyLower (pyStrip name)) "function") = true := by
    rw [add_row_cond, h]; rfl
  simp [add_row, hc]

theorem add_row_keep_read (conc : Option Int) (rows : List Target)
    (name : String) (vt : Option String) (h : goodName name = true) :
    add_row conc true rows name vt =
      match parse_int_or_none vt with
      | .error e => .error e
      | .ok (some v) => .ok (rows ++ [(pyStrip name, some v)])
      | .ok none => .ok (rows ++ [(pyStrip name, conc)]) := by
  have hc : (pyStrip name == "" || pyStartsWith (pyLower (pyStrip name)) "function") = false := by
    rw [add_row_cond, h]; rfl
  simp [add_row, hc]

theorem add_row_noread (conc : Option Int) (rows : List Target)
    (name : String) (vt : Option String) (h : goodName name = true) :
    add_row conc false rows name vt = .ok (rows ++ [(pyStrip name, none)]) := by
  have hc : (pyStrip name == "" || pyStartsWith (pyLower (pyStrip name)) "function") = false := by
    rw [add_row_cond, h]; rfl
  simp [add_row, hc]

theorem add_row_names (conc : Option Int) (rv : Bool) (rows out : List Target)
    (name : String) (vt : Option String) (h : add_row conc rv rows name vt = .ok out) :
    out.map Prod.fst
      = rows.map Prod.fst ++ (if goodName name = true then [pyStrip name] else []) := by
  cases hg : goodName name
  · rw [add_row_skip conc rv rows name vt hg] at h
    cases h
    simp
  · cases rv
    · rw [add_row_noread conc rows name vt hg] at h
      cases h
      simp
    · rw [add_row_keep_read conc rows name vt hg] at h
      cases hv : parse_int_or_none vt with
      | error e => rw [hv] at h; cases h
      | ok ov =>
          rw [hv] at h
          cases ov <;> cases h <;> simp

theorem add_row_conc_irrel (conc conc2 : Option Int) (rows : List Target)
    (name : String) (vt : Option String) :
    add_row conc false rows name vt = add_row conc2 false rows name vt := by
  cases hg : goodName name
  · rw [add_row_skip conc false rows name vt hg, add_row_skip conc2 false rows name vt hg]
  · rw [add_row_noread conc rows name vt hg, add_row_noread conc2 rows name vt hg]

theorem keptNames_cons (parts : List String) (rest : List (List String)) :
    keptNames (parts :: rest)
      = (if rowKept parts = true then [pyStrip (parts.headD "")] else [])
        ++ keptNames rest := by
  unfold keptNames
  cases hk : rowKept parts <;> simp [List.filter_cons, hk]

theorem processRows_names (conc : Option Int) (rv : Bool) :
    ∀ (csvRows : List (List String)) (rows out : List Target),
      processRows conc rv rows csvRows = .ok out →
      out.map Prod.fst = rows.map Prod.fst ++ keptNames csvRows := by
  intro csvRows
  induction csvRows with
  | nil =>
      intro rows out h
      cases h
      simp [keptNames]
  | cons parts rest ih =>
      intro rows out h
      unfold processRows at h
      rw [keptNames_cons]
      by_cases hp : parts.isEmpty
      · rw [if_pos hp] at h
        have hk : rowKept parts = false := by simp [rowKept, hp]
        rw [hk]
        simpa using ih rows out h
      · rw [if_neg hp] at h
        have hpb : parts.isEmpty = false := by
          cases hq : parts.isEmpty
          · rfl
          · exact absurd hq hp
        cases hadd : add_row conc rv rows (parts.headD "") parts[1]? with
        | error e => rw [hadd] at h; cases h
        | ok rows2 =>
            rw [hadd] at h
            have h2 := ih rows2 out h
            rw [add_row_names conc rv rows rows2 (parts.headD "") parts[1]? hadd] at h2
            have hk : rowKept parts = goodName (parts.headD "") := by
              simp [rowKept, hpb]
            rw [hk, h2, List.append_assoc]

theorem processRows_conc_irrel (conc conc2 : Option Int) :
    ∀ (csvRows : List (List String)) (rows : List Target),
      processRows conc false rows csvRows = processRows conc2 false rows csvRows := by
  intro csvRows
  induction csvRows with
  | nil => intro rows; rfl
  | cons parts rest ih =>
      intro rows
      unfold processRows
      by_cases hp : parts.isEmpty
      · rw [if_pos hp, if_pos hp]
        exact ih rows
      · rw [if_neg hp, if_neg hp,
            add_row_conc_irrel conc conc2 rows (parts.headD "") parts[1]?]
        cases add_row conc2 false rows (parts.headD "") parts[1]? with
        | error e => rfl
        | ok rows2 => exact ih rows2

theorem firstRows_none (args : Args) (rv : Bool) (hf : args.function = none) :
    firstRows args rv = .ok [] := by
  unfold firstRows
  rw [hf]

theorem fileRows_some (args : Args) (rv : Bool) (rows0 : List Target)
    (csvRows : List (List String)) (hfile : args.file = some csvRows) :
    fileRows args rv rows0 = processRows args.concurrency rv rows0 csvRows := by
  unfold fileRows
  rw [hfile]

theorem iter_targets_ok_names (args : Args) (rv : Bool) (targets : List Target)
    (csvRows : List (List String)) (hf : args.function = none)
    (hfile : args.file = some csvRows) (h : iter_targets args rv = .ok targets) :
    targets.map Prod.fst = keptNames csvRows := by
  unfold iter_targets at h
  rw [firstRows_none args rv hf] at h
  dsimp only at h
  rw [fileRows_some args rv [] csvRows hfile] at h
  cases hp : processRows args.concurrency rv [] csvRows with
  | error e => rw [hp] at h; cases h
  | ok rows =>
      rw [hp] at h
      dsimp only at h
      by_cases he : rows.isEmpty = true
      · rw [if_pos he] at h; cases h
      · rw [if_neg he] at h
        cases h
        simpa using processRows_names args.concurrency rv csvRows [] targets hp

theorem iter_targets_header (args : Args) (name : String) (rv : Bool)
    (hf : args.function = some name) (hfile : args.file = none)
    (hdr : pyStartsWith (pyLower (pyStrip name)) "function" = true) :
    iter_targets args rv = .error noTargetsMsg := by
  have hg : goodName name = false := by simp [goodName, hdr]
  have h0 : firstRows args rv = .ok [] := by
    unfold firstRows
    rw [hf]
    dsimp only
    by_cases hn : (name == "") = true
    · rw [if_pos hn]
    · rw [if_neg hn, add_row_skip args.concurrency rv [] name none hg]
  have h1 : fileRows args rv [] = .ok [] := by
    unfold fileRows
    rw [hfile]
  unfold iter_targets
  rw [h0]
  dsimp only
  rw [h1]
  rfl

theorem firstRows_conc_irrel (args : Args) (c2 : Option Int) :
    firstRows { args with concurrency := c2 } false = firstRows args false := by
  unfold firstRows
  dsimp only
  cases hf : args.function with
  | none => rfl
  | some f =>
      dsimp only
      by_cases hn : (f == "") = true
      · rw [if_pos hn, if_pos hn]
      · rw [if_neg hn, if_neg hn, add_row_conc_irrel c2 args.concurrency [] f none]

theorem fileRows_conc_irrel (args : Args) (c2 : Option Int) (rows0 : List Target) :
    fileRows { args with concurrency := c2 } false rows0 = fileRows args false rows0 := by
  unfold fileRows
  dsimp only
  cases hfile : args.file with
  | none => rfl
  | some csvRows =>
      dsimp only
      rw [processRows_conc_irrel c2 args.concurrency csvRows rows0]

theorem iter_targets_conc_irrel (args : Args) (c2 : Option Int) :
    iter_targets { args with concurrency := c2 } false = iter_targets args false := by
  unfold iter_targets
  rw [firstRows_conc_irrel args c2]
  cases h0 : firstRows args false with
  | error e => rfl
  | ok rows0 =>
      dsimp only
      rw [fileRows_conc_irrel args c2 rows0]

/-! Lemmas about `main`. -/

theorem modeCount_one (args : Args) (h : modeCount args = 1) :
    (args.remove = true ∧ args.throttle = false ∧ args.do_set = false)
    ∨ (args.remove = false ∧ args.throttle = true ∧ args.do_set = false)
    ∨ (args.remove = false ∧ args.throttle = false ∧ args.do_set = true) := by
  cases hr : args.remove <;> cases ht : args.throttle <;> cases hs : args.do_set <;>
    simp [modeCount, hr, ht, hs] at h <;> simp

theorem main_show_eq (args : Args) (fails : Action → Bool) (hshow : args.showFlag = true) :
    main args fails =
      match iter_targets args false with
      | .error e => .error e
      | .ok targets => .ok (targets.map (fun t => Action.get t.1), 0) := by
  simp [main, hshow]

theorem main_remove_eq (args : Args) (fails : Action → Bool) (hshow : args.showFlag = false)
    (hr : args.remove = true) (ht : args.throttle = false) (hs : args.do_set = false) :
    main args fails =
      match iter_targets args false with
      | .error e => .error e
      | .ok targets =>
          if args.dry_run then .ok ([], 0)
          else
            .ok (targets.map (fun t => Action.delete t.1),
              if (targets.map (fun t => Action.delete t.1)).any fails then 1 else 0) := by
  simp [main, modeCount, hshow, hr, ht, hs]

theorem main_throttle_eq (args : Args) (fails : Action → Bool) (hshow : args.showFlag = false)
    (hr : args.remove = false) (ht : args.throttle = true) (hs : args.do_set = false) :
    main args fails =
      match iter_targets args false with
      | .error e => .error e
      | .ok targets =>
          if args.dry_run then .ok ([], 0)
          else
            .ok (targets.map (fun t => Action.put t.1 0),
              if (targets.map (fun t => Action.put t.1 0)).any fails then 1 else 0) := by
  simp [main, modeCount, hshow, hr, ht, hs]

theorem main_set_eq (args : Args) (fails : Action → Bool) (hshow : args.showFlag = false)
    (hr : args.remove = false) (ht : args.throttle = false) (hs : args.do_set = true) :
    main args fails =
      match iter_targets args true with
      | .error e => .error e
      | .ok targets =>
          if ¬ ((targets.filter fun t => t.2 == none).map Prod.fst).isEmpty then
            .error (missingMsg ((targets.filter fun t => t.2 == none).map Prod.fst))
          else if args.dry_run then .ok ([], 0)
          else
            .ok (targets.map setAction,
              if (targets.map setAction).any fails then 1 else 0) := by
  simp [main, modeCount, hshow, hr, ht, hs]

theorem main_eq (args : Args) (fails : Action → Bool) :
    main args fails =
      match actsOf args with
      | .error e => .error e
      | .ok acts =>
          .ok (acts, if args.showFlag then 0 else if acts.any fails then 1 else 0) := by
  cases hshow : args.showFlag with
  | true =>
      rw [main_show_eq args fails hshow]
      cases hit : iter_targets args false <;> simp [actsOf, hshow, hit]
  | false =>
      by_cases hmc : modeCount args = 1
      · rcases modeCount_one args hmc with ⟨hr, ht, hs⟩ | ⟨hr, ht, hs⟩ | ⟨hr, ht, hs⟩
        · rw [main_remove_eq args fails hshow hr ht hs]
          cases hit : iter_targets args false <;> cases hd : args.dry_run <;>
            simp [actsOf, hshow, hmc, hr, ht, hs, hit, hd]
        · rw [main_throttle_eq args fails hshow hr ht hs]
          cases hit : iter_targets args false <;> cases hd : args.dry_run <;>
            simp [actsOf, hshow, hmc, hr, ht, hs, hit, hd]
        · rw [main_set_eq args fails hshow hr ht hs]
          cases hit : iter_targets args true with
          | error e => simp [actsOf, hshow, hmc, hr, ht, hs, hit]
          | ok targets =>
              by_cases hm :
                  ((targets.filter fun t => t.2 == none).map Prod.fst).isEmpty = true
              · cases hd : args.dry_run <;>
                  simp [actsOf, hshow, hmc, hr, ht, hs, hit, hm, hd]
              · simp [actsOf, hshow, hmc, hr, ht, hs, hit, hm]
      · simp [main, actsOf, hshow, hmc]

theorem main_ok_acts (args : Args) (fails : Action → Bool) (tr : List Action) (code : Nat)
    (h : main args fails = .ok (tr, code)) :
    actsOf args = .ok tr
    ∧ code = (if args.showFlag = true then 0 else if tr.any fails = true then 1 else 0) := by
  rw [main_eq] at h
  cases ha : actsOf args with
  | error e => rw [ha] at h; cases h
  | ok acts =>
      rw [ha] at h
      dsimp only at h
      simp only [Except.ok.injEq, Prod.mk.injEq] at h
      obtain ⟨h1, h2⟩ := h
      subst h1
      exact ⟨rfl, h2.symm⟩

theorem setAction_put_ne_neg_one (t : Target) (fn : String) (v : Int)
    (h : setAction t = Action.put fn v) : v ≠ -1 := by
  cases t with
  | mk n ov =>
      cases ov with
      | none =>
          unfold setAction at h
          dsimp only at h
          injection h with h1 h2
          subst h2
          decide
      | some w =>
          unfold setAction at h
          dsimp only at h
          by_cases hw : w = -1
          · rw [if_pos hw] at h
            cases h
          · rw [if_neg hw] at h
            injection h with h1 h2
            subst h2
            exact hw

/-! The claims. -/

/-- C1: in Set mode a target resolves to its row value when present, else
to the `--concurrency` default; for CSV `a,5 / b / c,-1` with default 3
the targets are `(a,5) (b,3) (c,-1)` and the live run puts 5 for `a`,
puts 3 for `b` and deletes `c`. -/
theorem claim_C1 :
    (∀ (conc : Option Int) (rows : List Target) (name : String) (vt : Option String)
        (v : Int), goodName name = true → parse_int_or_none vt = .ok (some v) →
        add_row conc true rows name vt = .ok (rows ++ [(pyStrip name, some v)]))
    ∧ (∀ (conc : Option Int) (rows : List Target) (name : String) (vt : Option String),
        goodName name = true → parse_int_or_none vt = .ok none →
        add_row conc true rows name vt = .ok (rows ++ [(pyStrip name, conc)]))
    ∧ iter_targets setArgsScenario true = .ok [("a", some 5), ("b", some 3), ("c", some (-1))]
    ∧ main setArgsScenario noFail
        = .ok ([Action.put "a" 5, Action.put "b" 3, Action.delete "c"], 0) := by
  refine ⟨?_, ?_, ?_, ?_⟩
  · intro conc rows name vt v hg hv
    rw [add_row_keep_read conc rows name vt hg, hv]
  · intro conc rows name vt hg hv
    rw [add_row_keep_read conc rows name vt hg, hv]
  · rfl
  · rfl

/-- C1 witness: a value-less row under default 3 resolves to 3. -/
theorem claim_C1_witness :
    add_row (some 3) true [] "b" none = .ok [("b", some 3)] :=
  claim_C1.2.1 (some 3) [] "b" none rfl rfl

/-- C2: in Set mode a resolved value of -1 always yields a delete call and
no put call ever carries value -1. -/
theorem claim_C2 (args : Args) (fails : Action → Bool) (tr : List Action) (code : Nat)
    (hshow : args.showFlag = false) (hr : args.remove = false) (ht : args.throttle = false)
    (hs : args.do_set = true) (h : main args fails = .ok (tr, code)) :
    (∀ fn v, Action.put fn v ∈ tr → v ≠ -1)
    ∧ (args.dry_run = false → ∀ targets, iter_targets args true = .ok targets →
        ∀ fn, (fn, some (-1)) ∈ targets → Action.delete fn ∈ tr) := by
  rw [main_set_eq args fails hshow hr ht hs] at h
  cases hit : iter_targets args true with
  | error e => rw [hit] at h; cases h
  | ok targets =>
      rw [hit] at h
      dsimp only at h
      by_cases hm : ((targets.filter fun t => t.2 == none).map Prod.fst).isEmpty = true
      · rw [if_neg (not_not_intro hm)] at h
        cases hd : args.dry_run with
        | true =>
            rw [if_pos hd] at h
            simp only [Except.ok.injEq, Prod.mk.injEq] at h
            obtain ⟨h1, h2⟩ := h
            subst h1
            constructor
            · intro fn v hmem
              simp at hmem
            · intro hd0
              exact Bool.noConfusion hd0
        | false =>
            rw [if_neg (by rw [hd]; exact Bool.false_ne_true)] at h
            simp only [Except.ok.injEq, Prod.mk.injEq] at h
            obtain ⟨h1, h2⟩ := h
            subst h1
            constructor
            · intro fn v hmem
              rw [List.mem_map] at hmem
              obtain ⟨t, _, hact⟩ := hmem
              exact setAction_put_ne_neg_one t fn v hact
            · intro _ targets2 hit2 fn hmem
              injection hit2 with he
              subst he
              rw [List.mem_map]
              exact ⟨(fn, some (-1)), hmem, rfl⟩
      · rw [if_pos hm] at h
        cases h

/-- C2 witness: in the spec scenario the `-1` row for `c` produces a
delete call in the issued trace. -/
theorem claim_C2_witness :
    Action.delete "c" ∈ [Action.put "a" 5, Action.put "b" 3, Action.delete "c"] :=
  (claim_C2 setArgsScenario noFail
      [Action.put "a" 5, Action.put "b" 3, Action.delete "c"] 0 rfl rfl rfl rfl rfl).2
    rfl [("a", some 5), ("b", some 3), ("c", some (-1))] rfl "c" (by simp)

/-- C3: whenever `--show` is present, every issued API call is a read,
never a put or delete. -/
theorem claim_C3 (args : Args) (fails : Action → Bool) (tr : List Action) (code : Nat)
    (hshow : args.showFlag = true) (h : main args fails = .ok (tr, code)) :
    ∀ a ∈ tr, ∃ fn, a = Action.get fn := by
  rw [main_show_eq args fails hshow] at h
  cases hit : iter_targets args false with
  | error e => rw [hit] at h; cases h
  | ok targets =>
      rw [hit] at h
      dsimp only at h
      simp only [Except.ok.injEq, Prod.mk.injEq] at h
      obtain ⟨h1, _⟩ := h
      subst h1
      intro a ha
      rw [List.mem_map] at ha
      obtain ⟨t, _, hat⟩ := ha
      exact ⟨t.1, hat.symm⟩

/-- C3 witness: `--show --function a` issues only the read call for `a`. -/
theorem claim_C3_witness : ∃ fn, Action.get "a" = Action.get fn :=
  claim_C3 showArgs noFail [Action.get "a"] 0 rfl rfl (Action.get "a") (by simp)

/-- C4 counterexample: with `--show --function a` and the get call
failing, the process still exits 0, so the claim is false in show mode. -/
theorem claim_C4_counterexample : ¬ claimC4Stated := by
  intro h
  have hx := h showArgs allFail [Action.get "a"] 0 rfl
  simp [allFail] at hx

/-- C4 (amended): in remove, throttle and set modes the exit code is 1
exactly when some issued call failed (0 otherwise); in show mode the exit
code is always 0 even when calls fail; in every mode the set of issued
calls does not depend on which calls fail (no early abort). -/
theorem claim_C4 (args : Args) (fails : Action → Bool) (tr : List Action) (code : Nat)
    (h : main args fails = .ok (tr, code)) :
    (args.showFlag = false → code = if tr.any fails then 1 else 0)
    ∧ (args.showFlag = true → code = 0)
    ∧ (∀ (fails2 : Action → Bool) (tr2 : List Action) (code2 : Nat),
        main args fails2 = .ok (tr2, code2) → tr2 = tr) := by
  obtain ⟨ha, hcode⟩ := main_ok_acts args fails tr code h
  refine ⟨?_, ?_, ?_⟩
  · intro hshow
    rw [hcode, hshow]
    simp
  · intro hshow
    rw [hcode, hshow]
    simp
  · intro fails2 tr2 code2 h2
    have ha2 := (main_ok_acts args fails2 tr2 code2 h2).1
    rw [ha] at ha2
    injection ha2 with he
    exact he.symm

/-- C4 witness: a failing remove run exits 1. -/
theorem claim_C4_witness :
    (1 : Nat) = if ([Action.delete "a"].any allFail) then 1 else 0 :=
  (claim_C4 removeArgs allFail [Action.delete "a"] 1 rfl).1 rfl

/-- C5 counterexample: `--show --function a --dry-run` still issues the
get call for `a`, so dry-run does not suppress network calls in show
mode. -/
theorem claim_C5_counterexample : ¬ claimC5Stated := by
  intro h
  have hx := (h showDryArgs noFail [Action.get "a"] 0 rfl rfl).1
  simp at hx

/-- C5 (amended): with `--dry-run` in remove, throttle and set modes,
any run that passes configuration validation issues no API call and
exits 0; show mode ignores `--dry-run` and still issues its read calls. -/
theorem claim_C5 (args : Args) (fails : Action → Bool) (tr : List Action) (code : Nat)
    (hdry : args.dry_run = true) (hshow : args.showFlag = false)
    (h : main args fails = .ok (tr, code)) : tr = [] ∧ code = 0 := by
  by_cases hmc : modeCount args = 1
  · rcases modeCount_one args hmc with ⟨hr, ht, hs⟩ | ⟨hr, ht, hs⟩ | ⟨hr, ht, hs⟩
    · rw [main_remove_eq args fails hshow hr ht hs] at h
      cases hit : iter_targets args false with
      | error e => rw [hit] at h; cases h
      | ok targets =>
          rw [hit] at h
          dsimp only at h
          rw [if_pos hdry] at h
          simp only [Except.ok.injEq, Prod.mk.injEq] at h
          exact ⟨h.1.symm, h.2.symm⟩
    · rw [main_throttle_eq args fails hshow hr ht hs] at h
      cases hit : iter_targets args false with
      | error e => rw [hit] at h; cases h
      | ok targets =>
          rw [hit] at h
          dsimp only at h
          rw [if_pos hdry] at h
          simp only [Except.ok.injEq, Prod.mk.injEq] at h
          exact ⟨h.1.symm, h.2.symm⟩
    · rw [main_set_eq args fails hshow hr ht hs] at h
      cases hit : iter_targets args true with
      | error e => rw [hit] at h; cases h
      | ok targets =>
          rw [hit] at h
          dsimp only at h
          by_cases hm : ((targets.filter fun t => t.2 == none).map Prod.fst).isEmpty = true
          · rw [if_neg (not_not_intro hm), if_pos hdry] at h
            simp only [Except.ok.injEq, Prod.mk.injEq] at h
            exact ⟨h.1.symm, h.2.symm⟩
          · rw [if_pos hm] at h
            cases h
  · simp [main, hshow, hmc] at h

/-- C5 witness: `--remove --function a --dry-run` issues nothing and
exits 0. -/
theorem claim_C5_witness : ([] : List Action) = [] ∧ (0 : Nat) = 0 :=
  claim_C5 removeDryArgs noFail [] 0 rfl rfl rfl

/-- C6: in Set mode an unresolved value terminates the run with the
missing-value configuration error (naming at most 5 functions, with an
ellipsis beyond 5) before any API call, and an empty target list likewise
terminates before any call. -/
theorem claim_C6 :
    (∀ (args : Args) (fails : Action → Bool) (targets : List Target),
        args.showFlag = false → args.remove = false → args.throttle = false →
        args.do_set = true → iter_targets args true = .ok targets →
        ((targets.filter fun t => t.2 == none).map Prod.fst).isEmpty = false →
        main args fails
          = .error (missingMsg ((targets.filter fun t => t.2 == none).map Prod.fst)))
    ∧ (∀ (args : Args) (fails : Action → Bool) (e : String),
        args.showFlag = false → args.remove = false → args.throttle = false →
        args.do_set = true → iter_targets args true = .error e →
        main args fails = .error e)
    ∧ main setMissing6Args noFail
        = .error
          "--set requires a concurrency value per-row or via --concurrency; missing for: f1, f2, f3, f4, f5..."
    ∧ main emptyCsvArgs noFail = .error noTargetsMsg := by
  refine ⟨?_, ?_, ?_, ?_⟩
  · intro args fails targets hshow hr ht hs hit hm
    rw [main_set_eq args fails hshow hr ht hs, hit]
    dsimp only
    rw [if_pos (by rw [hm]; exact Bool.false_ne_true)]
  · intro args fails e hshow hr ht hs hit
    rw [main_set_eq args fails hshow hr ht hs, hit]
  · rfl
  · rfl

/-- C6 witness: one value-less row with no default terminates with the
missing-value error naming `x`. -/
theorem claim_C6_witness :
    main setMissing1Args noFail = .error (missingMsg ["x"]) :=
  claim_C6.1 setMissing1Args noFail [("x", none)] rfl rfl rfl rfl rfl rfl

/-- C7: in Throttle mode every target gets a put call with value 0,
whatever the CSV values or `--concurrency` say. -/
theorem claim_C7 (args : Args) (fails : Action → Bool) (tr : List Action) (code : Nat)
    (hshow : args.showFlag = false) (hr : args.remove = false) (ht : args.throttle = true)
    (hs : args.do_set = false) (hdry : args.dry_run = false)
    (h : main args fails = .ok (tr, code)) :
    (∃ targets, iter_targets args false = .ok targets
        ∧ tr = targets.map (fun t => Action.put t.1 0))
    ∧ (∀ a ∈ tr, ∃ fn, a = Action.put fn 0)
    ∧ (∀ conc2, main { args with concurrency := conc2 } fails = .ok (tr, code)) := by
  rw [main_throttle_eq args fails hshow hr ht hs] at h
  cases hit : iter_targets args false with
  | error e => rw [hit] at h; cases h
  | ok targets =>
      rw [hit] at h
      dsimp only at h
      rw [if_neg (by rw [hdry]; exact Bool.false_ne_true)] at h
      simp only [Except.ok.injEq, Prod.mk.injEq] at h
      obtain ⟨h1, h2⟩ := h
      subst h1
      subst h2
      refine ⟨⟨targets, rfl, rfl⟩, ?_, ?_⟩
      · intro a ha
        rw [List.mem_map] at ha
        obtain ⟨t, _, hat⟩ := ha
        exact ⟨t.1, hat.symm⟩
      · intro conc2
        rw [main_throttle_eq { args with concurrency := conc2 } fails hshow hr ht hs,
          iter_targets_conc_irrel args conc2, hit]
        dsimp only
        rw [if_neg (by rw [hdry]; exact Bool.false_ne_true)]

/-- C7 witness: row `a,7` with `--concurrency 9` still gets value 0. -/
theorem claim_C7_witness : ∃ fn, Action.put "a" 0 = Action.put fn 0 :=
  (claim_C7 throttleArgs noFail [Action.put "a" 0] 0 rfl rfl rfl rfl rfl rfl).2.1
    (Action.put "a" 0) (by simp)

/-- C8: CSV target resolution keeps exactly the rows that are non-blank,
have a nonempty stripped name, and whose name does not start with
"function" case-insensitively, in order. -/
theorem claim_C8 (args : Args) (rv : Bool) (targets : List Target)
    (csvRows : List (List String)) (hf : args.function = none)
    (hfile : args.file = some csvRows) (h : iter_targets args rv = .ok targets) :
    targets.map Prod.fst
      = (csvRows.filter fun parts => !parts.isEmpty && goodName (parts.headD "")).map
          fun parts => pyStrip (parts.headD "") :=
  iter_targets_ok_names args rv targets csvRows hf hfile h

/-- C8 witness: a header row, a blank row, a whitespace-only name and a
lowercase header-like row are all dropped; the real row survives. -/
theorem claim_C8_witness :
    ([("a", some 5)] : List Target).map Prod.fst
      = (filterCsv.filter fun parts => !parts.isEmpty && goodName (parts.headD "")).map
          fun parts => pyStrip (parts.headD "") :=
  claim_C8 filterArgs true [("a", some 5)] filterCsv rfl rfl rfl

/-- C9: a single `--function` name that is header-like after stripping is
silently dropped, so the run dies with the no-targets configuration
error. -/
theorem claim_C9 (args : Args) (fails : Action → Bool) (name : String) (rv : Bool)
    (hf : args.function = some name) (hfile : args.file = none)
    (hdr : pyStartsWith (pyLower (pyStrip name)) "function" = true) :
    iter_targets args rv = .error noTargetsMsg
    ∧ (args.showFlag = true ∨ modeCount args = 1 →
        main args fails = .error noTargetsMsg) := by
  refine ⟨iter_targets_header args name rv hf hfile hdr, ?_⟩
  intro hmode
  by_cases hshow : args.showFlag = true
  · rw [main_show_eq args fails hshow, iter_targets_header args name false hf hfile hdr]
  · have hshow2 : args.showFlag = false := by
      cases hq : args.showFlag
      · rfl
      · exact absurd hq hshow
    have hmc : modeCount args = 1 := by
      cases hmode with
      | inl h1 => exact absurd h1 hshow
      | inr h1 => exact h1
    rcases modeCount_one args hmc with ⟨hr, ht, hs⟩ | ⟨hr, ht, hs⟩ | ⟨hr, ht, hs⟩
    · rw [main_remove_eq args fails hshow2 hr ht hs,
        iter_targets_header args name false hf hfile hdr]
    · rw [main_throttle_eq args fails hshow2 hr ht hs,
        iter_targets_header args name false hf hfile hdr]
    · rw [main_set_eq args fails hshow2 hr ht hs,
        iter_targets_header args name true hf hfile hdr]

/-- C9 witness: `--show --function FunctionFoo` terminates with the
no-targets error. -/
theorem claim_C9_witness : main headerShowArgs noFail = .error noTargetsMsg :=
  (claim_C9 headerShowArgs noFail "FunctionFoo" false rfl rfl rfl).2 (Or.inl rfl)

/-- C10: Set mode passes any resolved value other than -1 to the put call
unchanged, with no local range validation; concretely `-2` and `0` are
sent as-is. -/
theorem claim_C10 :
    (∀ (args : Args) (fails : Action → Bool) (tr : List Action) (code : Nat)
        (targets : List Target) (fn : String) (v : Int),
        args.showFlag = false → args.remove = false → args.throttle = false →
        args.do_set = true → args.dry_run = false →
        main args fails = .ok (tr, code) →
        iter_targets args true = .ok targets →
        (fn, some v) ∈ targets → v ≠ -1 →
        Action.put fn v ∈ tr)
    ∧ main negValArgs noFail = .ok ([Action.put "a" (-2), Action.put "b" 0], 0) := by
  constructor
  · intro args fails tr code targets fn v hshow hr ht hs hdry h hit hmem hv
    rw [main_set_eq args fails hshow hr ht hs, hit] at h
    dsimp only at h
    by_cases hm : ((targets.filter fun t => t.2 == none).map Prod.fst).isEmpty = true
    · rw [if_neg (not_not_intro hm), if_neg (by rw [hdry]; exact Bool.false_ne_true)] at h
      simp only [Except.ok.injEq, Prod.mk.injEq] at h
      obtain ⟨h1, _⟩ := h
      subst h1
      rw [List.mem_map]
      refine ⟨(fn, some v), hmem, ?_⟩
      unfold setAction
      dsimp only
      rw [if_neg hv]
    · rw [if_pos hm] at h
      cases h
  · rfl

/-- C10 witness: the resolved value -2 is issued unchanged. -/
theorem claim_C10_witness :
    Action.put "a" (-2) ∈ [Action.put "a" (-2), Action.put "b" 0] :=
  claim_C10.1 negValArgs noFail [Action.put "a" (-2), Action.put "b" 0] 0
    [("a", some (-2)), ("b", some 0)] "a" (-2) rfl rfl rfl rfl rfl rfl rfl (by simp)
    (by decide)

end Hello
